import Mathlib

/-!
Verification of the safe_network corpus: the self-encrypting blob store
(client/client_api/blob_apis.rs), the inbound message duty classifier
(node/msg_analysis.rs), the node lifecycle state machine
(states/approved_peer/mod.rs) and the test RNG seed parser (test_rng.rs),
shallowly embedded in Lean.  External collaborators (the self-encryptor,
bincode serialization, the transport) are modelled as opaque deterministic
functions gathered in environment structures.
-/

namespace Blob

/-- Owner public key of a private chunk (opaque, modelled as a natural). -/
abbrev PublicKey := Nat

/-- Byte strings are lists of byte values. -/
abbrev Bytes := List Nat

/-- Details of one encrypted leaf chunk, as produced by the external
self-encryptor (mirrors self_encryption::ChunkDetails). -/
structure ChunkDetails where
  preHash : Bytes
  postHash : Bytes
  size : Nat
deriving DecidableEq

/-- The self_encryption::DataMap type: either the pre-encryption placeholder
or the ordered list of leaf-chunk details. -/
inductive DataMap where
  | none
  | chunks (details : List ChunkDetails)
deriving DecidableEq

/-- DataMapLevel from blob_apis.rs: Root holds the data map of the client's
data, Child holds the data map of a serialized oversized level. -/
inductive DataMapLevel where
  | root (m : DataMap)
  | child (m : DataMap)
deriving DecidableEq

/-- Chunk from the types crate: Public carries a payload, Private carries a
payload and its owner's public key. -/
inductive Chunk where
  | publicChunk (value : Bytes)
  | privateChunk (value : Bytes) (owner : PublicKey)
deriving DecidableEq

/-- Address of a head chunk: the visibility tag together with the name. -/
inductive ChunkAddress where
  | publicAddr (name : Nat)
  | privateAddr (name : Nat)
deriving DecidableEq

/-- Whether an address carries the Public visibility tag. -/
def ChunkAddress.is_public : ChunkAddress → Bool
  | ChunkAddress.publicAddr _ => true
  | ChunkAddress.privateAddr _ => false

/-- A chunk write command as carried by DataCmd::Blob. -/
inductive ChunkWrite where
  | newChunk (c : Chunk)
  | deletePrivate (a : ChunkAddress)
deriving DecidableEq

/-- The data command sent through pay_and_send_data_command. -/
inductive DataCmd where
  | blob (w : ChunkWrite)
deriving DecidableEq

/-- Client-side error values relevant to the blob APIs. -/
inductive ClientError where
  | exceededSize
  | dataNotFound
  | invalidOperation
  | serializationError
  | selfEncryptionError
deriving DecidableEq

/-- External collaborators of the blob store.  The claim under study assumes
the self-encryptor is a deterministic function of its input bytes (in
particular independent of the storage adapter it is given, BlobStorage or
BlobStorageDryRun), so the write-and-close pipeline is a plain function;
bincode serialization is likewise a plain function.  Chunk::validate_size and
Chunk::address live in the types crate, outside the corpus, and are kept
opaque here. -/
structure Env where
  selfEncrypt : Bytes → DataMap
  serializeLevel : DataMapLevel → Bytes
  serializeChunk : Chunk → Bytes
  validSize : Chunk → Bool
  addressOf : Chunk → ChunkAddress
  payAndSend : DataCmd → Except ClientError Unit

/-- The chunk construction inside Client::pack: a public chunk of the
contents, or a private chunk owned by the client's own key. -/
def packChunk (isPublic : Bool) (selfKey : PublicKey) (contents : Bytes) : Chunk :=
  if isPublic then Chunk.publicChunk contents
  else Chunk.privateChunk contents selfKey

/-- Client::pack from blob_apis.rs: wrap the contents in a chunk of the
requested visibility (a private chunk is owned by the client's own key);
return it if it validates its size, otherwise self-encrypt its serialization
and retry on the serialized Child data-map level.  The unbounded source loop
is given explicit fuel; exhausted fuel is Option.none. -/
def pack (env : Env) (isPublic : Bool) (selfKey : PublicKey) :
    Nat → Bytes → Option Chunk
  | 0, _ => Option.none
  | fuel + 1, contents =>
    let chunk := packChunk isPublic selfKey contents
    if env.validSize chunk then some chunk
    else
      pack env isPublic selfKey fuel
        (env.serializeLevel (DataMapLevel.child (env.selfEncrypt (env.serializeChunk chunk))))

/-- The head chunk built by Client::create_new_blob (reached from
store_public_blob / store_private_blob): self-encrypt the data (the
write_to_network call), serialize the Root level, and pack it. -/
def create_new_blob_chunk (env : Env) (isPublic : Bool) (selfKey : PublicKey)
    (fuel : Nat) (data : Bytes) : Option Chunk :=
  pack env isPublic selfKey fuel (env.serializeLevel (DataMapLevel.root (env.selfEncrypt data)))

/-- Client::store_chunk_on_network: reject an oversized chunk with
ExceededSize, otherwise issue the chunk-write command.  The second component
records the command issued (Option.none when no command was sent). -/
def store_chunk_on_network (env : Env) (chunk : Chunk) :
    Except ClientError Unit × Option DataCmd :=
  if env.validSize chunk = false then
    (Except.error ClientError.exceededSize, Option.none)
  else
    (env.payAndSend (DataCmd.blob (ChunkWrite.newChunk chunk)),
      some (DataCmd.blob (ChunkWrite.newChunk chunk)))

/-- The chunk construction inside Client::blob_data_map: a private chunk for
the given owner when one is supplied, a public chunk otherwise. -/
def dryRunChunk (privatelyOwned : Option PublicKey) (content : Bytes) : Chunk :=
  match privatelyOwned with
  | some owner => Chunk.privateChunk content owner
  | Option.none => Chunk.publicChunk content

/-- Client::blob_data_map, the offline dry-run packer: repeatedly
self-encrypt, wrap the map as Root on the first pass and as Child afterwards,
build the chunk for the requested owner, and stop when it validates its size.
The unbounded source loop is given explicit fuel. -/
def blob_data_map (env : Env) (privatelyOwned : Option PublicKey) :
    Nat → Bytes → Bool → Option (DataMap × Chunk)
  | 0, _, _ => Option.none
  | fuel + 1, data, isOriginalData =>
    let dataMap := env.selfEncrypt data
    let chunkContent :=
      if isOriginalData then env.serializeLevel (DataMapLevel.root dataMap)
      else env.serializeLevel (DataMapLevel.child dataMap)
    let chunk := dryRunChunk privatelyOwned chunkContent
    if env.validSize chunk then some (dataMap, chunk)
    else blob_data_map env privatelyOwned fuel (env.serializeChunk chunk) false

/-- The dry-run packer and the real store build chunks the same way when the
dry-run owner option matches the store's visibility and client key. -/
theorem dryRunChunk_eq_packChunk (selfKey : PublicKey)
    (privatelyOwned : Option PublicKey) (isPublic : Bool)
    (h : privatelyOwned = if isPublic then Option.none else some selfKey) :
    ∀ content, dryRunChunk privatelyOwned content = packChunk isPublic selfKey content := by
  intro content
  subst h
  cases isPublic <;> simp [dryRunChunk, packChunk]

/-- On the non-original (Child) iterations the dry-run packer agrees with
pack applied to the serialized Child level of the self-encrypted data. -/
theorem blob_data_map_child_eq_pack (env : Env) (selfKey : PublicKey)
    (privatelyOwned : Option PublicKey) (isPublic : Bool)
    (h : privatelyOwned = if isPublic then Option.none else some selfKey) :
    ∀ fuel data,
      (blob_data_map env privatelyOwned fuel data false).map (fun p => p.2) =
        pack env isPublic selfKey fuel
          (env.serializeLevel (DataMapLevel.child (env.selfEncrypt data))) := by
  intro fuel
  induction fuel with
  | zero => intro data; rfl
  | succ n ih =>
    intro data
    simp only [blob_data_map, pack, if_false, Bool.false_eq_true,
      dryRunChunk_eq_packChunk selfKey privatelyOwned isPublic h]
    by_cases hv :
        env.validSize (packChunk isPublic selfKey
          (env.serializeLevel (DataMapLevel.child (env.selfEncrypt data)))) = true
    · simp [hv]
    · simp only [Bool.not_eq_true] at hv
      simp [hv, ih]

/-- C1: for every byte string and every visibility choice (public, or private
with a fixed owner key equal to the client's key), the head chunk computed by
the offline dry-run packer Client::blob_data_map equals the head chunk built
by a real store of the same bytes (create_new_blob reached from
store_public_blob / store_private_blob), under the same loop fuel; hence the
head-chunk addresses agree.  The self-encryptor is modelled as a
deterministic function of its input, as the claim assumes. -/
theorem blob_data_map_address_determinism (env : Env) (selfKey : PublicKey)
    (privatelyOwned : Option PublicKey) (isPublic : Bool)
    (h : privatelyOwned = if isPublic then Option.none else some selfKey)
    (fuel : Nat) (data : Bytes) :
    (blob_data_map env privatelyOwned fuel data true).map (fun p => p.2) =
      create_new_blob_chunk env isPublic selfKey fuel data ∧
    (blob_data_map env privatelyOwned fuel data true).map (fun p => env.addressOf p.2) =
      (create_new_blob_chunk env isPublic selfKey fuel data).map env.addressOf := by
  have hmain :
      (blob_data_map env privatelyOwned fuel data true).map (fun p => p.2) =
        create_new_blob_chunk env isPublic selfKey fuel data := by
    cases fuel with
    | zero => rfl
    | succ n =>
      simp only [blob_data_map, create_new_blob_chunk, pack, if_true,
        dryRunChunk_eq_packChunk selfKey privatelyOwned isPublic h]
      by_cases hv :
          env.validSize (packChunk isPublic selfKey
            (env.serializeLevel (DataMapLevel.root (env.selfEncrypt data)))) = true
      · simp [hv]
      · simp only [Bool.not_eq_true] at hv
        simp [hv, blob_data_map_child_eq_pack env selfKey privatelyOwned isPublic h]
  refine ⟨hmain, ?_⟩
  have : (blob_data_map env privatelyOwned fuel data true).map (fun p => env.addressOf p.2) =
      ((blob_data_map env privatelyOwned fuel data true).map (fun p => p.2)).map env.addressOf := by
    cases blob_data_map env privatelyOwned fuel data true <;> rfl
  rw [this, hmain]

/-- A sample environment used by the closed witnesses below: every chunk of
serialized size at most three validates, serialization is a length-preserving
dummy encoding, the self-encryptor returns the empty chunk list. -/
def sampleEnv : Env where
  selfEncrypt := fun _ => DataMap.chunks []
  serializeLevel := fun l => match l with
    | DataMapLevel.root _ => [0, 0]
    | DataMapLevel.child _ => [1, 1]
  serializeChunk := fun c => match c with
    | Chunk.publicChunk v => 0 :: v
    | Chunk.privateChunk v o => 1 :: o :: v
  validSize := fun c => match c with
    | Chunk.publicChunk v => v.length ≤ 3
    | Chunk.privateChunk v _ => v.length ≤ 3
  addressOf := fun c => match c with
    | Chunk.publicChunk v => ChunkAddress.publicAddr v.length
    | Chunk.privateChunk v o => ChunkAddress.privateAddr (v.length + o)
  payAndSend := fun _ => Except.ok ()

/-- Witness for C1: the determinism theorem instantiated at the sample
environment, public visibility, fuel two and a concrete byte string. -/
theorem blob_data_map_address_determinism_witness :
    (blob_data_map sampleEnv Option.none 2 [7, 7, 7] true).map (fun p => p.2) =
      create_new_blob_chunk sampleEnv true 0 2 [7, 7, 7] :=
  (blob_data_map_address_determinism sampleEnv 0 Option.none true rfl 2 [7, 7, 7]).1

/-- Every chunk that pack returns validates its size: the loop only exits
through the validate_size branch. -/
theorem pack_validates (env : Env) (isPublic : Bool) (selfKey : PublicKey) :
    ∀ fuel contents c, pack env isPublic selfKey fuel contents = some c →
      env.validSize c = true := by
  intro fuel
  induction fuel with
  | zero => intro contents c hc; exact absurd hc (by simp [pack])
  | succ n ih =>
    intro contents c hc
    rw [pack] at hc
    by_cases hv : env.validSize (packChunk isPublic selfKey contents) = true
    · rw [if_pos hv] at hc
      cases hc
      exact hv
    · rw [if_neg hv] at hc
      exact ih _ _ hc

/-- C5: store_chunk_on_network returns the ExceededSize error, issuing no
chunk-write command, exactly when the chunk fails validate_size (the command
pipeline pay_and_send_data_command, outside the corpus, is assumed never to
produce ExceededSize itself); every chunk returned by pack validates its
size; hence storing a head chunk produced by create_new_blob never triggers
the ExceededSize error. -/
theorem store_chunk_exceeded_size_iff (env : Env)
    (hpay : ∀ c, env.payAndSend c ≠ Except.error ClientError.exceededSize) :
    (∀ chunk,
        ((store_chunk_on_network env chunk).1 = Except.error ClientError.exceededSize ↔
          env.validSize chunk = false) ∧
        (env.validSize chunk = false →
          (store_chunk_on_network env chunk).2 = Option.none)) ∧
    (∀ isPublic selfKey fuel data c,
        create_new_blob_chunk env isPublic selfKey fuel data = some c →
          env.validSize c = true ∧
          (store_chunk_on_network env c).1 ≠ Except.error ClientError.exceededSize) := by
  constructor
  · intro chunk
    constructor
    · constructor
      · intro herr
        by_contra hval
        simp only [Bool.not_eq_false] at hval
        rw [store_chunk_on_network, if_neg (by simp [hval])] at herr
        exact hpay _ herr
      · intro hval
        rw [store_chunk_on_network, if_pos hval]
    · intro hval
      rw [store_chunk_on_network, if_pos hval]
  · intro isPublic selfKey fuel data c hc
    have hvalid := pack_validates env isPublic selfKey fuel _ c hc
    refine ⟨hvalid, ?_⟩
    intro herr
    rw [store_chunk_on_network, if_neg (by simp [hvalid])] at herr
    exact hpay _ herr

/-- Witness for C5: at the sample environment, a three-byte public head chunk
packs in one step, validates its size, and stores without ExceededSize. -/
theorem store_chunk_exceeded_size_iff_witness :
    ((store_chunk_on_network sampleEnv (Chunk.publicChunk [1, 2, 3, 4])).1 =
        Except.error ClientError.exceededSize ↔
      sampleEnv.validSize (Chunk.publicChunk [1, 2, 3, 4]) = false) ∧
    (store_chunk_on_network sampleEnv (Chunk.publicChunk [0, 0])).1 ≠
      Except.error ClientError.exceededSize := by
  have h := store_chunk_exceeded_size_iff sampleEnv (by
    intro c
    cases c with
    | blob w => simp [sampleEnv])
  exact ⟨(h.1 (Chunk.publicChunk [1, 2, 3, 4])).1,
    (h.2 true 0 1 [5] (Chunk.publicChunk [0, 0]) (by decide)).2⟩

/-- The chunks currently stored on the network, indexed by address. -/
abbrev Network := List (ChunkAddress × Chunk)

/-- Payload bytes of a chunk (Chunk::value). -/
def Chunk.value : Chunk → Bytes
  | Chunk.publicChunk v => v
  | Chunk.privateChunk v _ => v

/-- Client::fetch_blob_from_network: a Get query answered with the stored
chunk, or DataNotFound. -/
def fetch_blob_from_network (net : Network) (addr : ChunkAddress) :
    Except ClientError Chunk :=
  match net.find? (fun p => decide (p.1 = addr)) with
  | some p => Except.ok p.2
  | Option.none => Except.error ClientError.dataNotFound

/-- Modelled from the spec: the network's handling of the
ChunkWrite::DeletePrivate command issued by Client::delete_chunk_from_network
through pay_and_send_data_command (the command pipeline and the node-side
chunk store are outside the corpus).  Deletion only applies to Private
chunks, so a delete aimed at a public address fails and removes nothing. -/
def delete_private_on_network (net : Network) (addr : ChunkAddress) :
    Except ClientError Network :=
  match addr with
  | ChunkAddress.publicAddr _ => Except.error ClientError.invalidOperation
  | ChunkAddress.privateAddr _ =>
    Except.ok (net.filter (fun p => decide (p.1 ≠ addr)))

/-- External collaborators of Client::delete_blob beyond the network:
bincode deserialization of the stored levels, and the self-encryptor driven
reads and deletes over a data map. -/
structure DeleteEnv where
  deserializeLevel : Bytes → Option DataMapLevel
  deserializeChunk : Bytes → Option Chunk
  readUsingDataMap : Network → DataMap → Except ClientError Bytes
  deleteUsingDataMap : Network → DataMap → Except ClientError Network

/-- The level-walking loop of Client::delete_blob: deserialize the current
chunk; at a Root level delete the chunks of its map and stop; at a Child
level read the serialized lower chunk, delete the level's map chunks, and
recurse.  Fuel bounds the recursion; the verdict is Option.none when it runs
out. -/
def delete_blob_loop (denv : DeleteEnv) :
    Nat → Network → Chunk → Network × Option (Except ClientError Unit)
  | 0, net, _ => (net, Option.none)
  | fuel + 1, net, chunk =>
    match denv.deserializeLevel (Chunk.value chunk) with
    | Option.none => (net, some (Except.error ClientError.serializationError))
    | some (DataMapLevel.root dataMap) =>
      match denv.deleteUsingDataMap net dataMap with
      | Except.error e => (net, some (Except.error e))
      | Except.ok net' => (net', some (Except.ok ()))
    | some (DataMapLevel.child dataMap) =>
      match denv.readUsingDataMap net dataMap with
      | Except.error e => (net, some (Except.error e))
      | Except.ok serializedChunk =>
        match denv.deleteUsingDataMap net dataMap with
        | Except.error e => (net, some (Except.error e))
        | Except.ok net' =>
          match denv.deserializeChunk serializedChunk with
          | Option.none => (net', some (Except.error ClientError.serializationError))
          | some chunk' => delete_blob_loop denv fuel net' chunk'

/-- Client::delete_blob: fetch the head chunk, delete it from the network
(a DeletePrivate command), then walk and delete the data-map levels.  The
result pairs the network state after the call with the returned verdict. -/
def delete_blob (denv : DeleteEnv) (fuel : Nat) (net : Network)
    (head : ChunkAddress) : Network × Option (Except ClientError Unit) :=
  match fetch_blob_from_network net head with
  | Except.error e => (net, some (Except.error e))
  | Except.ok chunk =>
    match delete_private_on_network net head with
    | Except.error e => (net, some (Except.error e))
    | Except.ok net' => delete_blob_loop denv fuel net' chunk

/-- C7: for every head address with the Public visibility tag, delete_blob
returns an error and leaves the network unchanged; a deletion that succeeds
was performed on a Private head address. -/
theorem delete_blob_public_errors (denv : DeleteEnv) (fuel : Nat)
    (net : Network) (head : ChunkAddress) :
    (ChunkAddress.is_public head = true →
      (delete_blob denv fuel net head).1 = net ∧
      ∃ e, (delete_blob denv fuel net head).2 = some (Except.error e)) ∧
    ((delete_blob denv fuel net head).2 = some (Except.ok ()) →
      ChunkAddress.is_public head = false) := by
  cases head with
  | publicAddr name =>
    constructor
    · intro _
      rw [delete_blob]
      cases hf : fetch_blob_from_network net (ChunkAddress.publicAddr name) with
      | error e => exact ⟨rfl, e, rfl⟩
      | ok c => exact ⟨rfl, ClientError.invalidOperation, rfl⟩
    · intro hok
      rw [delete_blob] at hok
      cases hf : fetch_blob_from_network net (ChunkAddress.publicAddr name) with
      | error e =>
        rw [hf] at hok
        simp at hok
      | ok c =>
        rw [hf] at hok
        simp [delete_private_on_network] at hok
  | privateAddr name =>
    exact ⟨fun h => by simp [ChunkAddress.is_public] at h, fun _ => rfl⟩

/-- A sample delete environment for the closed witness below. -/
def sampleDeleteEnv : DeleteEnv where
  deserializeLevel := fun _ => some (DataMapLevel.root (DataMap.chunks []))
  deserializeChunk := fun _ => Option.none
  readUsingDataMap := fun _ _ => Except.ok []
  deleteUsingDataMap := fun net _ => Except.ok net

/-- Witness for C7: deleting at a concrete public head address on a network
holding that chunk errors and leaves the network unchanged. -/
theorem delete_blob_public_errors_witness :
    (delete_blob sampleDeleteEnv 3
        [(ChunkAddress.publicAddr 5, Chunk.publicChunk [1])]
        (ChunkAddress.publicAddr 5)).1 =
      [(ChunkAddress.publicAddr 5, Chunk.publicChunk [1])] ∧
    ∃ e, (delete_blob sampleDeleteEnv 3
        [(ChunkAddress.publicAddr 5, Chunk.publicChunk [1])]
        (ChunkAddress.publicAddr 5)).2 = some (Except.error e) :=
  (delete_blob_public_errors sampleDeleteEnv 3
    [(ChunkAddress.publicAddr 5, Chunk.publicChunk [1])]
    (ChunkAddress.publicAddr 5)).1 rfl

end Blob

namespace MsgAnalysis

/-- 256-bit addresses of the overlay, kept opaque. -/
abbrev XorName := Nat

/-- Elder duties matched by the classifier (other duties fall under the
wildcard arms of the source matches). -/
inductive ElderDuty where
  | gateway
  | payment
  | metadata
  | otherElder
deriving DecidableEq

/-- Duty of a message sender (Duty::Elder of interest, everything else under
the wildcard). -/
inductive Duty where
  | elder (d : ElderDuty)
  | otherDuty
deriving DecidableEq

/-- MsgSender as matched in msg_analysis.rs: a client, a single node with a
duty, or an accumulated section with a duty. -/
inductive MsgSender where
  | client (name : XorName)
  | node (duty : Duty)
  | sect (duty : Duty)
deriving DecidableEq

/-- Address of a message destination. -/
inductive Address where
  | client (x : XorName)
  | node (x : XorName)
  | sect (x : XorName)
deriving DecidableEq

/-- Address::xorname. -/
def Address.xorname : Address → XorName
  | Address.client x => x
  | Address.node x => x
  | Address.sect x => x

/-- Data commands (only the Blob constructor is singled out by the source). -/
inductive DataCmd where
  | blob
  | otherData
deriving DecidableEq

/-- Commands matched by the classifier. -/
inductive Cmd where
  | auth
  | data (cmd : DataCmd)
  | transfer
deriving DecidableEq

/-- Queries matched by the classifier. -/
inductive Query where
  | data
  | otherQuery
deriving DecidableEq

/-- Message as matched by the classifier predicates. -/
inductive Message where
  | cmd (c : Cmd)
  | query (q : Query)
  | otherMsg
deriving DecidableEq

/-- MsgEnvelope: the message, the origin, the most recent sender along the
proxy chain, and the destination (a derived attribute of the source type,
carried here as a field). -/
structure MsgEnvelope where
  message : Message
  origin : MsgSender
  mostRecentSender : MsgSender
  destination : Address
deriving DecidableEq

/-- The routing state consulted by the classifier: whether this node is an
elder, whether its name is among our adults, which addresses match our
section's range (matches_our_prefix), and our own name. -/
structure Routing where
  isElderNode : Bool
  isAdultNode : Bool
  handles : XorName → Bool
  selfName : XorName

/-- NodeDuties from msg_analysis.rs. -/
inductive NodeDuties where
  | infant
  | adult
  | elder
deriving DecidableEq

/-- InboundMsgAnalysis::our_duties. -/
def our_duties (r : Routing) : NodeDuties :=
  if r.isElderNode then NodeDuties.elder
  else if r.isAdultNode then NodeDuties.adult
  else NodeDuties.infant

/-- InboundMsgAnalysis::is_elder. -/
def is_elder (r : Routing) : Bool :=
  our_duties r = NodeDuties.elder

/-- InboundMsgAnalysis::is_adult. -/
def is_adult (r : Routing) : Bool :=
  our_duties r = NodeDuties.adult

/-- InboundMsgAnalysis::self_is_handler_for. -/
def self_is_handler_for (r : Routing) (address : XorName) : Bool :=
  r.handles address

/-- InboundMsgAnalysis::is_dst_for. -/
def is_dst_for (r : Routing) (msg : MsgEnvelope) : Bool :=
  self_is_handler_for r (Address.xorname msg.destination)

/-- InboundMsg from msg_analysis.rs: the classifier's verdict. -/
inductive InboundMsg where
  | accumulate (m : MsgEnvelope)
  | forwardToNetwork (m : MsgEnvelope)
  | runAtGateway (m : MsgEnvelope)
  | runAtPayment (m : MsgEnvelope)
  | runAtMetadata (m : MsgEnvelope)
  | runAtAdult (m : MsgEnvelope)
  | sendToClient (m : MsgEnvelope)
  | runAtRewards (m : MsgEnvelope)
  | runAtTransfers (m : MsgEnvelope)
  | unknown
deriving DecidableEq

/-- InboundMsgAnalysis::should_forward_to_network. -/
def should_forward_to_network (r : Routing) (msg : MsgEnvelope) : Bool :=
  let destinedForNetwork :=
    match msg.destination with
    | Address.client address => !(self_is_handler_for r address)
    | Address.node address => !(address == r.selfName)
    | Address.sect address => !(self_is_handler_for r address)
  let fromClient :=
    match msg.mostRecentSender with
    | MsgSender.client _ => true
    | _ => false
  let isAuthCmd :=
    match msg.message with
    | Message.cmd Cmd.auth => true
    | _ => false
  destinedForNetwork || (fromClient && !isAuthCmd)

/-- InboundMsgAnalysis::should_run_at_gateway_auth. -/
def should_run_at_gateway_auth (r : Routing) (msg : MsgEnvelope) : Bool :=
  let fromClient :=
    match msg.origin with
    | MsgSender.client _ => true
    | _ => false
  let agreedByGatewaySection :=
    match msg.mostRecentSender with
    | MsgSender.sect (Duty.elder ElderDuty.gateway) => true
    | _ => false
  let isAuthCmd :=
    match msg.message with
    | Message.cmd Cmd.auth => true
    | _ => false
  fromClient && agreedByGatewaySection && isAuthCmd && is_dst_for r msg && is_elder r

/-- InboundMsgAnalysis::should_run_at_data_payment. -/
def should_run_at_data_payment (r : Routing) (msg : MsgEnvelope) : Bool :=
  let fromGatewaySingleElder :=
    match msg.mostRecentSender with
    | MsgSender.node (Duty.elder ElderDuty.gateway) => true
    | _ => false
  let isDataMsg :=
    match msg.message with
    | Message.cmd (Cmd.data _) => true
    | Message.query Query.data => true
    | _ => false
  isDataMsg && fromGatewaySingleElder && is_dst_for r msg && is_elder r

/-- InboundMsgAnalysis::should_accumulate_for_metadata_write. -/
def should_accumulate_for_metadata_write (r : Routing) (msg : MsgEnvelope) : Bool :=
  let fromSinglePaymentElder :=
    match msg.mostRecentSender with
    | MsgSender.node (Duty.elder ElderDuty.payment) => true
    | _ => false
  let isDataCmd :=
    match msg.message with
    | Message.cmd (Cmd.data _) => true
    | _ => false
  isDataCmd && fromSinglePaymentElder && is_dst_for r msg && is_elder r

/-- InboundMsgAnalysis::should_run_at_metadata_write. -/
def should_run_at_metadata_write (r : Routing) (msg : MsgEnvelope) : Bool :=
  let fromPaymentSection :=
    match msg.mostRecentSender with
    | MsgSender.sect (Duty.elder ElderDuty.payment) => true
    | _ => false
  let isDataCmd :=
    match msg.message with
    | Message.cmd (Cmd.data _) => true
    | _ => false
  isDataCmd && fromPaymentSection && is_dst_for r msg && is_elder r

/-- InboundMsgAnalysis::should_accumulate_for_adult. -/
def should_accumulate_for_adult (r : Routing) (msg : MsgEnvelope) : Bool :=
  let fromSingleMetadataElder :=
    match msg.mostRecentSender with
    | MsgSender.node (Duty.elder ElderDuty.metadata) => true
    | _ => false
  let isChunkCmd :=
    match msg.message with
    | Message.cmd (Cmd.data DataCmd.blob) => true
    | _ => false
  isChunkCmd && fromSingleMetadataElder && is_dst_for r msg && is_adult r

/-- InboundMsgAnalysis::should_run_at_adult. -/
def should_run_at_adult (r : Routing) (msg : MsgEnvelope) : Bool :=
  let fromMetadataSection :=
    match msg.mostRecentSender with
    | MsgSender.sect (Duty.elder ElderDuty.metadata) => true
    | _ => false
  let isChunkCmd :=
    match msg.message with
    | Message.cmd (Cmd.data DataCmd.blob) => true
    | _ => false
  isChunkCmd && fromMetadataSection && is_dst_for r msg && is_adult r

/-- InboundMsgAnalysis::should_run_at_rewards: unimplemented in the source
and constantly false. -/
def should_run_at_rewards (_r : Routing) (_msg : MsgEnvelope) : Bool :=
  false

/-- InboundMsgAnalysis::should_run_at_transfers. -/
def should_run_at_transfers (r : Routing) (msg : MsgEnvelope) : Bool :=
  let fromSingleGatewayElder :=
    match msg.mostRecentSender with
    | MsgSender.node (Duty.elder ElderDuty.gateway) => true
    | _ => false
  let isTransfer :=
    match msg.message with
    | Message.cmd Cmd.transfer => true
    | _ => false
  isTransfer && fromSingleGatewayElder && is_dst_for r msg && is_elder r

/-- InboundMsgAnalysis::should_push_to_client. -/
def should_push_to_client (r : Routing) (msg : MsgEnvelope) : Bool :=
  match msg.destination with
  | Address.client xorname => self_is_handler_for r xorname
  | _ => false

/-- InboundMsgAnalysis::should_accumulate. -/
def should_accumulate (r : Routing) (msg : MsgEnvelope) : Bool :=
  should_accumulate_for_metadata_write r msg || should_accumulate_for_adult r msg

/-- InboundMsgAnalysis::evaluate: the duty classifier, a cascade of
predicate tests returning the first matching action. -/
def evaluate (r : Routing) (msg : MsgEnvelope) : InboundMsg :=
  if should_accumulate r msg then InboundMsg.accumulate msg
  else if should_forward_to_network r msg then InboundMsg.forwardToNetwork msg
  else if should_push_to_client r msg then InboundMsg.sendToClient msg
  else if should_run_at_gateway_auth r msg then InboundMsg.runAtGateway msg
  else if should_run_at_data_payment r msg then InboundMsg.runAtPayment msg
  else if should_run_at_metadata_write r msg then InboundMsg.runAtMetadata msg
  else if should_run_at_adult r msg then InboundMsg.runAtAdult msg
  else if should_run_at_rewards r msg then InboundMsg.runAtRewards msg
  else if should_run_at_transfers r msg then InboundMsg.runAtTransfers msg
  else InboundMsg.unknown

/-- A first-match-wins cascade over a list of predicate and action pairs,
defaulting to the unknown verdict. -/
def firstMatch (msg : MsgEnvelope) :
    List ((MsgEnvelope → Bool) × (MsgEnvelope → InboundMsg)) → InboundMsg
  | [] => InboundMsg.unknown
  | (p, a) :: rest => if p msg then a msg else firstMatch msg rest

/-- The classifier's predicate table in the order the code tests it. -/
def codeOrderTable (r : Routing) :
    List ((MsgEnvelope → Bool) × (MsgEnvelope → InboundMsg)) :=
  [(should_accumulate r, fun m => InboundMsg.accumulate m),
   (should_forward_to_network r, fun m => InboundMsg.forwardToNetwork m),
   (should_push_to_client r, fun m => InboundMsg.sendToClient m),
   (should_run_at_gateway_auth r, fun m => InboundMsg.runAtGateway m),
   (should_run_at_data_payment r, fun m => InboundMsg.runAtPayment m),
   (should_run_at_metadata_write r, fun m => InboundMsg.runAtMetadata m),
   (should_run_at_adult r, fun m => InboundMsg.runAtAdult m),
   (should_run_at_rewards r, fun m => InboundMsg.runAtRewards m),
   (should_run_at_transfers r, fun m => InboundMsg.runAtTransfers m)]

/-- The routing state of the counterexample: an elder node handling every
address. -/
def elderRouting : Routing where
  isElderNode := true
  isAdultNode := false
  handles := fun _ => true
  selfName := 0

/-- The envelope of the counterexample: a data command from a single payment
elder whose destination is a client address handled by this node, so that
both the accumulate predicate and the push-to-client predicate hold. -/
def clientDstEnvelope : MsgEnvelope where
  message := Message.cmd (Cmd.data DataCmd.otherData)
  origin := MsgSender.client 5
  mostRecentSender := MsgSender.node (Duty.elder ElderDuty.payment)
  destination := Address.client 7

/-- Counterexample to C2: on an envelope whose destination is a client
address handled by this node and which also satisfies the accumulate
predicate, evaluate returns Accumulate, not push-to-client: the accumulate
test precedes the client test, contradicting the claimed table order. -/
theorem evaluate_client_dst_counterexample :
    should_push_to_client elderRouting clientDstEnvelope = true ∧
    should_accumulate elderRouting clientDstEnvelope = true ∧
    evaluate elderRouting clientDstEnvelope =
      InboundMsg.accumulate clientDstEnvelope ∧
    evaluate elderRouting clientDstEnvelope ≠
      InboundMsg.sendToClient clientDstEnvelope := by
  refine ⟨by decide, by decide, by decide, by decide⟩

/-- C2 (amended): evaluate returns exactly the verdict of the
first-match-wins cascade over its predicates in the order the code tests
them (accumulate, forward, push-to-client, gateway auth, payment, metadata,
adult, rewards, transfers, unknown); in particular, when a client-destined
envelope handled by this node also satisfies the accumulate predicate, the
verdict is Accumulate rather than push-to-client. -/
theorem evaluate_first_match_wins (r : Routing) (msg : MsgEnvelope) :
    evaluate r msg = firstMatch msg (codeOrderTable r) ∧
    (should_push_to_client r msg = true → should_accumulate r msg = true →
      evaluate r msg = InboundMsg.accumulate msg) := by
  constructor
  · rfl
  · intro _ hacc
    rw [evaluate, if_pos hacc]

/-- Witness for C2 (amended): the cascade equality and the accumulate
priority evaluated at the concrete elder routing state and a
metadata-accumulation envelope. -/
theorem evaluate_first_match_wins_witness :
    evaluate elderRouting
        { message := Message.cmd (Cmd.data DataCmd.blob)
          origin := MsgSender.client 5
          mostRecentSender := MsgSender.node (Duty.elder ElderDuty.payment)
          destination := Address.client 3 } =
      InboundMsg.accumulate
        { message := Message.cmd (Cmd.data DataCmd.blob)
          origin := MsgSender.client 5
          mostRecentSender := MsgSender.node (Duty.elder ElderDuty.payment)
          destination := Address.client 3 } :=
  (evaluate_first_match_wins elderRouting _).2 (by decide) (by decide)

/-- Whether a verdict is the rewards action. -/
def InboundMsg.isRunAtRewards : InboundMsg → Bool
  | InboundMsg.runAtRewards _ => true
  | _ => false

/-- C8: the classifier never returns the rewards action for any routing
state and any envelope, because should_run_at_rewards is constantly false. -/
theorem evaluate_never_rewards (r : Routing) (msg : MsgEnvelope) :
    InboundMsg.isRunAtRewards (evaluate r msg) = false := by
  rw [evaluate]
  by_cases h1 : should_accumulate r msg = true
  · simp [h1, InboundMsg.isRunAtRewards]
  · simp only [Bool.not_eq_true] at h1
    by_cases h2 : should_forward_to_network r msg = true
    · simp [h1, h2, InboundMsg.isRunAtRewards]
    · simp only [Bool.not_eq_true] at h2
      by_cases h3 : should_push_to_client r msg = true
      · simp [h1, h2, h3, InboundMsg.isRunAtRewards]
      · simp only [Bool.not_eq_true] at h3
        by_cases h4 : should_run_at_gateway_auth r msg = true
        · simp [h1, h2, h3, h4, InboundMsg.isRunAtRewards]
        · simp only [Bool.not_eq_true] at h4
          by_cases h5 : should_run_at_data_payment r msg = true
          · simp [h1, h2, h3, h4, h5, InboundMsg.isRunAtRewards]
          · simp only [Bool.not_eq_true] at h5
            by_cases h6 : should_run_at_metadata_write r msg = true
            · simp [h1, h2, h3, h4, h5, h6, InboundMsg.isRunAtRewards]
            · simp only [Bool.not_eq_true] at h6
              by_cases h7 : should_run_at_adult r msg = true
              · simp [h1, h2, h3, h4, h5, h6, h7, InboundMsg.isRunAtRewards]
              · simp only [Bool.not_eq_true] at h7
                by_cases h8 : should_run_at_transfers r msg = true
                · simp [h1, h2, h3, h4, h5, h6, h7, h8, should_run_at_rewards,
                    InboundMsg.isRunAtRewards]
                · simp only [Bool.not_eq_true] at h8
                  simp [h1, h2, h3, h4, h5, h6, h7, h8, should_run_at_rewards,
                    InboundMsg.isRunAtRewards]

end MsgAnalysis

namespace Peer

/-- Byte strings on the wire. -/
abbrev Bytes := List Nat

/-- Socket addresses, opaque. -/
abbrev SocketAddr := Nat

/-- Public identities of peers, opaque. -/
abbrev PublicId := Nat

/-- Node names (256-bit XOR addresses), opaque. -/
abbrev Name := Nat

/-- Delay in seconds after which a bounced message is resent
(BOUNCE_RESEND_DELAY in approved_peer/mod.rs). -/
def BOUNCE_RESEND_DELAY : Nat := 1

/-- Destination location of a routing message. -/
inductive DstLocation where
  | node (name : Name)
  | sect (name : Name)
  | pfxDst (bits : Nat)
  | direct
deriving DecidableEq

/-- Modelled from the spec: DstLocation::is_multiple (location.rs is outside
the corpus); Section and Prefix destinations are multi-target locations. -/
def DstLocation.is_multiple : DstLocation → Bool
  | DstLocation.sect _ => true
  | DstLocation.pfxDst _ => true
  | _ => false

/-- The Joining stage's data relevant here: the join timer token. -/
structure JoiningStage where
  joinToken : Nat

/-- The Approved stage's data relevant here: the chain lookup
find_section_by_member (kept as the version of the section a member belongs
to, if known) and chain.in_dst_location. -/
structure ApprovedStage where
  sectionVersionOf : PublicId → Option Nat
  inDst : DstLocation → Bool

/-- The node lifecycle stage (stage.rs's Stage enum). -/
inductive Stage where
  | bootstrapping
  | joining (j : JoiningStage)
  | approved (a : ApprovedStage)
  | terminated

/-- Whether a stage is the Approved stage. -/
def Stage.isApproved : Stage → Bool
  | Stage.approved _ => true
  | _ => false

/-- A partially decoded message: its destination and its full bytes
(MessageWithBytes). -/
structure MessageWithBytes where
  dst : DstLocation
  bytes : Bytes
deriving DecidableEq

/-- Observable side effects of the handlers: direct bounces, signed relays,
delayed resends, bootstrap requests, disconnects, transport restarts, user
events, and effects of the externally implemented stage handlers. -/
inductive Effect where
  | sendDirectBounce (target : SocketAddr) (eldersVersion : Option Nat) (message : Bytes)
  | sendSignedRelay (message : Bytes)
  | sendLater (target : SocketAddr) (message : Bytes) (delay : Nat)
  | disconnect (target : SocketAddr)
  | transportBootstrap
  | eventTerminated
  | externalEffect (tag : Nat)
deriving DecidableEq

/-- Result of a handler: a normal return carrying a value, or a hit on a
panicking branch (unreachable!() or a failed assert!). -/
inductive Flow (α : Type) where
  | ok (value : α)
  | panicked

/-- The node state threaded through the handlers: lifecycle stage, full
identity, the RNG driving fresh identities, own name, and the queued
messages awaiting dispatch. -/
structure RNode where
  stage : Stage
  fullId : Nat
  rngCounter : Nat
  selfName : Name
  msgQueue : List (MessageWithBytes × Option SocketAddr)

/-- Outcome of verify_message in a given stage. -/
inductive VerifyResult where
  | verified
  | rejected
  | errored
deriving DecidableEq

/-- Outcome of Core::handle_unsent_message. -/
inductive PeerStatus where
  | normal
  | lost
deriving DecidableEq

/-- Typed routing errors surfaced by handle_send_message. -/
inductive RoutingError where
  | badLocation
  | otherError
deriving DecidableEq

/-- External collaborators of ApprovedPeer: transport bookkeeping, message
decoding, the incoming-message filter, and the stage-internal handlers that
live outside this file's scope (bootstrapping.rs, joining.rs, approved.rs). -/
structure REnv where
  transportTimeout : Nat → Bool
  parseMsg : Bytes → Option MessageWithBytes
  filterContains : MessageWithBytes → Bool
  deserializeMsg : MessageWithBytes → Option MessageWithBytes
  bootShould : MessageWithBytes → Bool
  joinShould : MessageWithBytes → Bool
  apprShould : MessageWithBytes → Bool
  bootVerify : MessageWithBytes → VerifyResult
  joinVerify : MessageWithBytes → VerifyResult
  apprVerify : MessageWithBytes → VerifyResult
  bootUnhandled : MessageWithBytes → List Effect
  joinUnhandled : MessageWithBytes → List Effect
  apprUnhandled : MessageWithBytes → List Effect
  apprUpdateKnowledge : ApprovedStage → MessageWithBytes → ApprovedStage
  dispatchBoot : MessageWithBytes → Option SocketAddr → Stage × List Effect
  dispatchJoin : JoiningStage → MessageWithBytes → Option SocketAddr → Stage × List Effect
  dispatchAppr : ApprovedStage → MessageWithBytes → Option SocketAddr → Stage × List Effect
  apprFinish : ApprovedStage → ApprovedStage × List Effect
  bootSendBootstrapRequest : SocketAddr → List Effect
  apprConnFailure : ApprovedStage → SocketAddr → ApprovedStage × List Effect
  handleUnsent : SocketAddr → Bytes → Nat → PeerStatus
  apprPeerLost : ApprovedStage → SocketAddr → ApprovedStage × List Effect
  apprTimeout : ApprovedStage → Nat → ApprovedStage × List Effect
  bootTimeout : Nat → List Effect
  joinTimeoutOther : JoiningStage → Nat → List Effect
  sendRouting : ApprovedStage → Nat → DstLocation → Bytes → List Effect × Except RoutingError Unit

/-- ApprovedPeer::in_dst_location: a bootstrapping or joining node only
handles messages addressed directly to its own name or sent Direct; an
approved node asks its chain; a terminated node handles nothing. -/
def in_dst_location (stage : Stage) (selfName : Name) (dst : DstLocation) : Bool :=
  match stage with
  | Stage.bootstrapping =>
    match dst with
    | DstLocation.node name => name == selfName
    | DstLocation.sect _ => false
    | DstLocation.pfxDst _ => false
    | DstLocation.direct => true
  | Stage.joining _ =>
    match dst with
    | DstLocation.node name => name == selfName
    | DstLocation.sect _ => false
    | DstLocation.pfxDst _ => false
    | DstLocation.direct => true
  | Stage.approved a => a.inDst dst
  | Stage.terminated => false

/-- ApprovedPeer::relay_message: a bootstrapping or joining node bounces the
message back to its immediate sender (and panics on a missing sender); an
approved node relays with section authority; the Terminated arm is the
source's unreachable!(). -/
def relay_message (stage : Stage) (sender : Option SocketAddr)
    (msg : MessageWithBytes) : Flow (List Effect) :=
  match stage with
  | Stage.bootstrapping =>
    match sender with
    | some s => Flow.ok [Effect.sendDirectBounce s Option.none msg.bytes]
    | Option.none => Flow.panicked
  | Stage.joining _ =>
    match sender with
    | some s => Flow.ok [Effect.sendDirectBounce s Option.none msg.bytes]
    | Option.none => Flow.panicked
  | Stage.approved _ => Flow.ok [Effect.sendSignedRelay msg.bytes]
  | Stage.terminated => Flow.panicked

/-- ApprovedPeer::try_relay_message: relay when the destination is not
handled here or is a multi-target location. -/
def try_relay_message (stage : Stage) (selfName : Name)
    (sender : Option SocketAddr) (msg : MessageWithBytes) : Flow (List Effect) :=
  if !(in_dst_location stage selfName msg.dst) || DstLocation.is_multiple msg.dst then
    relay_message stage sender msg
  else Flow.ok []

/-- ApprovedPeer::should_handle_message: stage dispatch, false when
Terminated. -/
def should_handle_message (env : REnv) (stage : Stage) (m : MessageWithBytes) : Bool :=
  match stage with
  | Stage.bootstrapping => env.bootShould m
  | Stage.joining _ => env.joinShould m
  | Stage.approved _ => env.apprShould m
  | Stage.terminated => false

/-- ApprovedPeer::verify_message: stage dispatch; the Terminated arm is the
source's unreachable!(). -/
def verify_message (env : REnv) (stage : Stage) (m : MessageWithBytes) :
    Flow VerifyResult :=
  match stage with
  | Stage.bootstrapping => Flow.ok (env.bootVerify m)
  | Stage.joining _ => Flow.ok (env.joinVerify m)
  | Stage.approved _ => Flow.ok (env.apprVerify m)
  | Stage.terminated => Flow.panicked

/-- ApprovedPeer::unhandled_message: stage dispatch, a no-op when
Terminated. -/
def unhandled_message (env : REnv) (stage : Stage) (m : MessageWithBytes) :
    List Effect :=
  match stage with
  | Stage.bootstrapping => env.bootUnhandled m
  | Stage.joining _ => env.joinUnhandled m
  | Stage.approved _ => env.apprUnhandled m
  | Stage.terminated => []

/-- ApprovedPeer::handle_message: an approved stage updates its knowledge
from the message, then the message is queued for dispatch. -/
def handle_message (env : REnv) (n : RNode) (sender : Option SocketAddr)
    (m : MessageWithBytes) : RNode :=
  let n1 :=
    match n.stage with
    | Stage.approved a => { n with stage := Stage.approved (env.apprUpdateKnowledge a m) }
    | _ => n
  { n1 with msgQueue := n1.msgQueue ++ [(m, sender)] }

/-- ApprovedPeer::try_handle_message: relay if needed, then handle locally
when the destination is ours, the filter has not seen the message, it
deserializes, the stage wants it and it verifies; failed verification or an
unwanted message goes to unhandled_message; decode and verification errors
are returned to the caller, which logs and drops them (merged here into a
normal return). -/
def try_handle_message (env : REnv) (n : RNode) (sender : Option SocketAddr)
    (m : MessageWithBytes) : Flow (RNode × List Effect) :=
  match try_relay_message n.stage n.selfName sender m with
  | Flow.panicked => Flow.panicked
  | Flow.ok eff =>
    if !(in_dst_location n.stage n.selfName m.dst) then Flow.ok (n, eff)
    else if env.filterContains m then Flow.ok (n, eff)
    else
      match env.deserializeMsg m with
      | Option.none => Flow.ok (n, eff)
      | some msg =>
        if should_handle_message env n.stage msg then
          match verify_message env n.stage msg with
          | Flow.panicked => Flow.panicked
          | Flow.ok VerifyResult.verified => Flow.ok (handle_message env n sender msg, eff)
          | Flow.ok VerifyResult.rejected =>
            Flow.ok (n, eff ++ unhandled_message env n.stage msg)
          | Flow.ok VerifyResult.errored => Flow.ok (n, eff)
        else Flow.ok (n, eff ++ unhandled_message env n.stage msg)

/-- ApprovedPeer::handle_new_message: decode the bytes (dropping undecodable
messages) and try to handle. -/
def handle_new_message (env : REnv) (n : RNode) (sender : SocketAddr)
    (bytes : Bytes) : Flow (RNode × List Effect) :=
  match env.parseMsg bytes with
  | Option.none => Flow.ok (n, [])
  | some m => try_handle_message env n (some sender) m

/-- ApprovedPeer::dispatch_message: stage dispatch of a queued message; the
Terminated arm is the source's unreachable!(). -/
def dispatch_message (env : REnv) (stage : Stage) (sender : Option SocketAddr)
    (m : MessageWithBytes) : Flow (Stage × List Effect) :=
  match stage with
  | Stage.bootstrapping => Flow.ok (env.dispatchBoot m sender)
  | Stage.joining j => Flow.ok (env.dispatchJoin j m sender)
  | Stage.approved a => Flow.ok (env.dispatchAppr a m sender)
  | Stage.terminated => Flow.panicked

/-- The draining loop of ApprovedPeer::handle_messages: pop each queued
message and dispatch it when its destination is still ours. -/
def handle_messages_go (env : REnv) (selfName : Name) :
    List (MessageWithBytes × Option SocketAddr) → Stage → Flow (Stage × List Effect)
  | [], st => Flow.ok (st, [])
  | (m, sender) :: rest, st =>
    if in_dst_location st selfName m.dst then
      match dispatch_message env st sender m with
      | Flow.panicked => Flow.panicked
      | Flow.ok (st', eff) =>
        match handle_messages_go env selfName rest st' with
        | Flow.panicked => Flow.panicked
        | Flow.ok (st'', eff') => Flow.ok (st'', eff ++ eff')
    else handle_messages_go env selfName rest st

/-- ApprovedPeer::handle_messages over the node's queue. -/
def handle_messages (env : REnv) (n : RNode) : Flow (RNode × List Effect) :=
  match handle_messages_go env n.selfName n.msgQueue n.stage with
  | Flow.panicked => Flow.panicked
  | Flow.ok (st, eff) => Flow.ok ({ n with stage := st, msgQueue := [] }, eff)

/-- ApprovedPeer::finish_handle_input: drain the queue, then let an approved
stage finish its input handling. -/
def finish_handle_input (env : REnv) (n : RNode) : Flow (RNode × List Effect) :=
  match handle_messages env n with
  | Flow.panicked => Flow.panicked
  | Flow.ok (n', eff) =>
    match n'.stage with
    | Stage.approved a =>
      let r := env.apprFinish a
      Flow.ok ({ n' with stage := Stage.approved r.1 }, eff ++ r.2)
    | _ => Flow.ok (n', eff)

/-- A network peer: a client connection or a node connection. -/
inductive NetPeer where
  | clientPeer (addr : SocketAddr)
  | nodePeer (addr : SocketAddr)
deriving DecidableEq

/-- The network events delivered to ApprovedPeer::handle_network_event. -/
inductive NetworkEvent where
  | bootstrappedTo (addr : SocketAddr)
  | bootstrapFailure
  | connectedTo (peer : NetPeer)
  | connectionFailure (peer : NetPeer)
  | newMessage (peer : NetPeer) (msg : Bytes)
  | unsentUserMessage (peer : NetPeer) (msg : Bytes) (token : Nat)
  | sentUserMessage (peer : NetPeer) (msg : Bytes) (token : Nat)
  | finish
deriving DecidableEq

/-- ApprovedPeer::handle_bootstrapped_to. -/
def handle_bootstrapped_to (env : REnv) (n : RNode) (addr : SocketAddr) :
    RNode × List Effect :=
  match n.stage with
  | Stage.bootstrapping => (n, env.bootSendBootstrapRequest addr)
  | Stage.joining _ => (n, [Effect.disconnect addr])
  | Stage.approved _ => (n, [Effect.disconnect addr])
  | Stage.terminated => (n, [])

/-- ApprovedPeer::handle_bootstrap_failure: asserts the stage is
Bootstrapping (a failed assert is a panic), then terminates the node. -/
def handle_bootstrap_failure (n : RNode) : Flow (RNode × List Effect) :=
  match n.stage with
  | Stage.bootstrapping =>
    Flow.ok ({ n with stage := Stage.terminated }, [Effect.eventTerminated])
  | _ => Flow.panicked

/-- ApprovedPeer::handle_connection_failure. -/
def handle_connection_failure (env : REnv) (n : RNode) (addr : SocketAddr) :
    RNode × List Effect :=
  match n.stage with
  | Stage.approved a =>
    let r := env.apprConnFailure a addr
    ({ n with stage := Stage.approved r.1 }, r.2)
  | _ => (n, [])

/-- ApprovedPeer::handle_peer_lost. -/
def handle_peer_lost (env : REnv) (n : RNode) (addr : SocketAddr) :
    RNode × List Effect :=
  match n.stage with
  | Stage.approved a =>
    let r := env.apprPeerLost a addr
    ({ n with stage := Stage.approved r.1 }, r.2)
  | _ => (n, [])

/-- ApprovedPeer::handle_unsent_message. -/
def handle_unsent_message (env : REnv) (n : RNode) (addr : SocketAddr)
    (msg : Bytes) (token : Nat) : RNode × List Effect :=
  match env.handleUnsent addr msg token with
  | PeerStatus.normal => (n, [])
  | PeerStatus.lost => handle_peer_lost env n addr

/-- Run finish_handle_input after a handler step, concatenating effects. -/
def and_finish (env : REnv) (p : RNode × List Effect) : Flow (RNode × List Effect) :=
  match finish_handle_input env p.1 with
  | Flow.panicked => Flow.panicked
  | Flow.ok r => Flow.ok (r.1, p.2 ++ r.2)

/-- ApprovedPeer::handle_network_event: dispatch the event, then (except for
Finish, which returns early after terminating the node) run
finish_handle_input. -/
def handle_network_event (env : REnv) (n : RNode) (ev : NetworkEvent) :
    Flow (RNode × List Effect) :=
  match ev with
  | NetworkEvent.bootstrappedTo addr => and_finish env (handle_bootstrapped_to env n addr)
  | NetworkEvent.bootstrapFailure =>
    match handle_bootstrap_failure n with
    | Flow.panicked => Flow.panicked
    | Flow.ok p => and_finish env p
  | NetworkEvent.connectedTo _ => and_finish env (n, [])
  | NetworkEvent.connectionFailure peer =>
    match peer with
    | NetPeer.clientPeer _ => and_finish env (n, [])
    | NetPeer.nodePeer addr => and_finish env (handle_connection_failure env n addr)
  | NetworkEvent.newMessage peer bytes =>
    match peer with
    | NetPeer.clientPeer _ => and_finish env (n, [])
    | NetPeer.nodePeer addr =>
      match handle_new_message env n addr bytes with
      | Flow.panicked => Flow.panicked
      | Flow.ok p => and_finish env p
  | NetworkEvent.unsentUserMessage peer msg token =>
    match peer with
    | NetPeer.clientPeer _ => and_finish env (n, [])
    | NetPeer.nodePeer addr => and_finish env (handle_unsent_message env n addr msg token)
  | NetworkEvent.sentUserMessage _ _ _ => and_finish env (n, [])
  | NetworkEvent.finish => Flow.ok ({ n with stage := Stage.terminated }, [])

/-- The verdict of ApprovedPeer::handle_bounce. -/
inductive BounceAction where
  | resendLater (target : SocketAddr) (message : Bytes) (delay : Nat)
  | dropBounce
  | unreachableCode
deriving DecidableEq

/-- ApprovedPeer::handle_bounce: a bootstrapping or joining node always
resends the bounced bytes unchanged after the fixed delay; an approved node
looks the sender up in its chain and resends when the bounce's sender
version is strictly behind the known version or absent
(Option.map followed by unwrap_or(true)), dropping otherwise; an unknown
sender is dropped; the Terminated arm is the source's unreachable!(). -/
def handle_bounce (stage : Stage) (sender : SocketAddr) (senderId : PublicId)
    (senderVersion : Option Nat) (msgBytes : Bytes) : BounceAction :=
  match stage with
  | Stage.bootstrapping => BounceAction.resendLater sender msgBytes BOUNCE_RESEND_DELAY
  | Stage.joining _ => BounceAction.resendLater sender msgBytes BOUNCE_RESEND_DELAY
  | Stage.approved a =>
    match a.sectionVersionOf senderId with
    | some knownVersion =>
      if (senderVersion.map (fun sv => decide (sv < knownVersion))).getD true then
        BounceAction.resendLater sender msgBytes BOUNCE_RESEND_DELAY
      else BounceAction.dropBounce
    | Option.none => BounceAction.dropBounce
  | Stage.terminated => BounceAction.unreachableCode

/-- Modelled from the spec and externals: FullId::gen draws a fresh full
identity from the node's RNG; the RNG is modelled as a counter whose every
past output is smaller than it, so a fresh identity differs from any
previously held one. -/
def gen_full_id (rng : Nat) : Nat × Nat :=
  (rng, rng + 1)

/-- ApprovedPeer::rebootstrap: enter a fresh Bootstrapping stage, generate a
fresh full identity, and restart the transport bootstrap. -/
def rebootstrap (n : RNode) : RNode × List Effect :=
  let idPair := gen_full_id n.rngCounter
  ({ n with stage := Stage.bootstrapping, fullId := idPair.1, rngCounter := idPair.2 },
    [Effect.transportBootstrap])

/-- Modelled from the spec: Joining::handle_timeout (joining.rs is outside
the corpus) reports that a rebootstrap is due exactly when the expired token
is the join timer's, per the spec's rule that a timeout in Joining
rebootstraps. -/
def joining_handle_timeout (j : JoiningStage) (token : Nat) : Bool :=
  token == j.joinToken

/-- ApprovedPeer::handle_timeout: transport timeouts are consumed first;
a joining stage whose join timer expired triggers rebootstrap. -/
def handle_timeout (env : REnv) (n : RNode) (token : Nat) : RNode × List Effect :=
  if env.transportTimeout token then (n, [])
  else
    match n.stage with
    | Stage.bootstrapping => (n, env.bootTimeout token)
    | Stage.joining j =>
      if joining_handle_timeout j token then rebootstrap n
      else (n, env.joinTimeoutOther j token)
    | Stage.approved a =>
      let r := env.apprTimeout a token
      ({ n with stage := Stage.approved r.1 }, r.2)
    | Stage.terminated => (n, [])

/-- The join rejection reasons that force a rebootstrap. -/
inductive RejectReason where
  | notReachable
  | joinsDisallowed
deriving DecidableEq

/-- Modelled from the spec: a joining node that receives
JoinResponse::Rejected with reason NotReachable or JoinsDisallowed
rebootstraps with a fresh identity (the join response handling is outside
the corpus). -/
def handle_join_rejection (n : RNode) (_reason : RejectReason) : RNode × List Effect :=
  match n.stage with
  | Stage.joining _ => rebootstrap n
  | _ => (n, [])

/-- ApprovedPeer::handle_send_message: a Direct destination is rejected with
BadLocation before any stage dispatch; a node that is not approved accepts
the call as a no-op returning Ok. -/
def handle_send_message (env : REnv) (n : RNode) (src : Nat) (dst : DstLocation)
    (content : Bytes) : RNode × List Effect × Except RoutingError Unit :=
  match dst with
  | DstLocation.direct => (n, [], Except.error RoutingError.badLocation)
  | _ =>
    match n.stage with
    | Stage.bootstrapping => (n, [], Except.ok ())
    | Stage.joining _ => (n, [], Except.ok ())
    | Stage.terminated => (n, [], Except.ok ())
    | Stage.approved a =>
      let r := env.sendRouting a src dst content
      (n, r.1, r.2)

/-- A sample routing environment for the closed instances below: transport
consumes no timeouts, every byte string decodes to a message for a foreign
node, all stage-internal handlers are inert. -/
def sampleREnv : REnv where
  transportTimeout := fun _ => false
  parseMsg := fun b => some { dst := DstLocation.node 99, bytes := b }
  filterContains := fun _ => false
  deserializeMsg := fun m => some m
  bootShould := fun _ => false
  joinShould := fun _ => false
  apprShould := fun _ => false
  bootVerify := fun _ => VerifyResult.rejected
  joinVerify := fun _ => VerifyResult.rejected
  apprVerify := fun _ => VerifyResult.rejected
  bootUnhandled := fun _ => []
  joinUnhandled := fun _ => []
  apprUnhandled := fun _ => []
  apprUpdateKnowledge := fun a _ => a
  dispatchBoot := fun _ _ => (Stage.bootstrapping, [])
  dispatchJoin := fun j _ _ => (Stage.joining j, [])
  dispatchAppr := fun a _ _ => (Stage.approved a, [])
  apprFinish := fun a => (a, [])
  bootSendBootstrapRequest := fun _ => []
  apprConnFailure := fun a _ => (a, [])
  handleUnsent := fun _ _ _ => PeerStatus.normal
  apprPeerLost := fun a _ => (a, [])
  apprTimeout := fun a _ => (a, [])
  bootTimeout := fun _ => []
  joinTimeoutOther := fun _ _ => []
  sendRouting := fun _ _ _ _ => ([], Except.ok ())

/-- A node whose stage is Terminated, with an empty message queue. -/
def terminatedNode : RNode where
  stage := Stage.terminated
  fullId := 0
  rngCounter := 1
  selfName := 0
  msgQueue := []

/-- C4 (evidence of the code bug): delivering a NewMessage network event
from a node peer with decodable bytes to a node whose stage is Terminated
reaches the Terminated arm of relay_message, the source's unreachable!(),
and panics: in_dst_location is false for every destination in Terminated, so
try_relay_message always relays, contradicting the spec's rule that the
Terminated stage ignores all inputs. -/
theorem terminated_new_message_hits_unreachable :
    handle_network_event sampleREnv terminatedNode
      (NetworkEvent.newMessage (NetPeer.nodePeer 4) [9]) = Flow.panicked := rfl

/-- An approved stage whose chain knows the bounce sender at version five. -/
def laggingSenderChain : ApprovedStage where
  sectionVersionOf := fun _ => some 5
  inDst := fun _ => false

/-- Counterexample to C3: an Approved node receiving a Bounce that carries
no sender version from a member whose section it knows resends the bounced
bytes (unwrap_or(true) treats an absent version as lagging) instead of
dropping the bounce as the claim states for an unknown sender version. -/
theorem handle_bounce_versionless_counterexample :
    handle_bounce (Stage.approved laggingSenderChain) 3 7 Option.none [1, 2] =
      BounceAction.resendLater 3 [1, 2] BOUNCE_RESEND_DELAY ∧
    handle_bounce (Stage.approved laggingSenderChain) 3 7 Option.none [1, 2] ≠
      BounceAction.dropBounce :=
  ⟨rfl, by decide⟩

/-- C3 (amended): a bootstrapping or joining node always resends the bounced
bytes unchanged after BOUNCE_RESEND_DELAY; an Approved node resends after
the same delay when the bounce's sender version is strictly behind the known
version of the sender's section, and also when the bounce carries no sender
version at all; it drops the bounce when the sender version is present and
not behind, and when the sender is not found in the chain. -/
theorem handle_bounce_cases (a : ApprovedStage) (j : JoiningStage)
    (sender : SocketAddr) (senderId : PublicId) (senderVersion : Option Nat)
    (msgBytes : Bytes) :
    handle_bounce Stage.bootstrapping sender senderId senderVersion msgBytes =
      BounceAction.resendLater sender msgBytes BOUNCE_RESEND_DELAY ∧
    handle_bounce (Stage.joining j) sender senderId senderVersion msgBytes =
      BounceAction.resendLater sender msgBytes BOUNCE_RESEND_DELAY ∧
    (∀ known sv, a.sectionVersionOf senderId = some known → senderVersion = some sv →
      sv < known →
      handle_bounce (Stage.approved a) sender senderId senderVersion msgBytes =
        BounceAction.resendLater sender msgBytes BOUNCE_RESEND_DELAY) ∧
    (∀ known sv, a.sectionVersionOf senderId = some known → senderVersion = some sv →
      ¬ sv < known →
      handle_bounce (Stage.approved a) sender senderId senderVersion msgBytes =
        BounceAction.dropBounce) ∧
    (∀ known, a.sectionVersionOf senderId = some known → senderVersion = Option.none →
      handle_bounce (Stage.approved a) sender senderId senderVersion msgBytes =
        BounceAction.resendLater sender msgBytes BOUNCE_RESEND_DELAY) ∧
    (a.sectionVersionOf senderId = Option.none →
      handle_bounce (Stage.approved a) sender senderId senderVersion msgBytes =
        BounceAction.dropBounce) := by
  refine ⟨rfl, rfl, ?_, ?_, ?_, ?_⟩
  · intro known sv h1 h2 h3
    simp [handle_bounce, h1, h2, h3]
  · intro known sv h1 h2 h3
    simp [handle_bounce, h1, h2, h3]
  · intro known h1 h2
    simp [handle_bounce, h1, h2]
  · intro h1
    simp [handle_bounce, h1]

/-- Witness for C3 (amended): a bounce with sender version three from a
member known at version five is resent after the fixed delay. -/
theorem handle_bounce_cases_witness :
    handle_bounce (Stage.approved laggingSenderChain) 1 2 (some 3) [9] =
      BounceAction.resendLater 1 [9] BOUNCE_RESEND_DELAY :=
  (handle_bounce_cases laggingSenderChain ⟨0⟩ 1 2 (some 3) [9]).2.2.1 5 3 rfl rfl
    (by omega)

/-- C6: a joining node whose join timer expires (and whose token the
transport does not consume) rebootstraps: its stage becomes Bootstrapping
and its full identity is freshly generated, hence differs from the identity
held while Joining (the RNG invariant being that past identities are below
the counter); likewise for a JoinResponse rejection with reason NotReachable
or JoinsDisallowed. -/
theorem joining_timeout_rebootstraps_fresh (env : REnv) (n : RNode)
    (j : JoiningStage) (token : Nat)
    (hstage : n.stage = Stage.joining j)
    (htr : env.transportTimeout token = false)
    (htok : token = j.joinToken)
    (hfresh : n.fullId < n.rngCounter) :
    ((handle_timeout env n token).1.stage = Stage.bootstrapping ∧
      (handle_timeout env n token).1.fullId ≠ n.fullId) ∧
    (∀ reason, (handle_join_rejection n reason).1.stage = Stage.bootstrapping ∧
      (handle_join_rejection n reason).1.fullId ≠ n.fullId) := by
  have hre : (rebootstrap n).1.stage = Stage.bootstrapping ∧
      (rebootstrap n).1.fullId ≠ n.fullId := by
    refine ⟨rfl, ?_⟩
    show n.rngCounter ≠ n.fullId
    omega
  have key : handle_timeout env n token = rebootstrap n := by
    unfold handle_timeout
    rw [if_neg (by simp [htr]), hstage]
    simp [joining_handle_timeout, htok]
  have key2 : ∀ reason, handle_join_rejection n reason = rebootstrap n := by
    intro reason
    unfold handle_join_rejection
    rw [hstage]
  rw [key]
  exact ⟨hre, fun reason => by rw [key2 reason]; exact hre⟩

/-- A node in the Joining stage with join timer token five, whose current
identity was drawn before the RNG counter. -/
def joiningNode : RNode where
  stage := Stage.joining ⟨5⟩
  fullId := 0
  rngCounter := 1
  selfName := 0
  msgQueue := []

/-- Witness for C6: the join timeout of the concrete joining node yields a
bootstrapping node with a different identity. -/
theorem joining_timeout_rebootstraps_fresh_witness :
    ((handle_timeout sampleREnv joiningNode 5).1.stage = Stage.bootstrapping ∧
      (handle_timeout sampleREnv joiningNode 5).1.fullId ≠ joiningNode.fullId) ∧
    (∀ reason, (handle_join_rejection joiningNode reason).1.stage = Stage.bootstrapping ∧
      (handle_join_rejection joiningNode reason).1.fullId ≠ joiningNode.fullId) :=
  joining_timeout_rebootstraps_fresh sampleREnv joiningNode ⟨5⟩ 5 rfl rfl rfl
    (by decide)

/-- C9: for every stage, handle_send_message with destination Direct returns
BadLocation, sends nothing and leaves the node unchanged (the Direct check
precedes any stage dispatch); with any non-Direct destination, a node that
is not Approved (Bootstrapping, Joining or Terminated) returns Ok while
sending nothing and leaving the node unchanged. -/
theorem handle_send_message_gates (env : REnv) (n : RNode) (src : Nat)
    (content : Bytes) :
    handle_send_message env n src DstLocation.direct content =
      (n, [], Except.error RoutingError.badLocation) ∧
    (∀ dst, dst ≠ DstLocation.direct → Stage.isApproved n.stage = false →
      handle_send_message env n src dst content = (n, [], Except.ok ())) := by
  constructor
  · rfl
  · intro dst hdst hst
    cases dst with
    | direct => exact absurd rfl hdst
    | node name =>
      cases hn : n.stage with
      | bootstrapping => simp [handle_send_message, hn]
      | joining j => simp [handle_send_message, hn]
      | approved a => rw [hn] at hst; simp [Stage.isApproved] at hst
      | terminated => simp [handle_send_message, hn]
    | sect name =>
      cases hn : n.stage with
      | bootstrapping => simp [handle_send_message, hn]
      | joining j => simp [handle_send_message, hn]
      | approved a => rw [hn] at hst; simp [Stage.isApproved] at hst
      | terminated => simp [handle_send_message, hn]
    | pfxDst bits =>
      cases hn : n.stage with
      | bootstrapping => simp [handle_send_message, hn]
      | joining j => simp [handle_send_message, hn]
      | approved a => rw [hn] at hst; simp [Stage.isApproved] at hst
      | terminated => simp [handle_send_message, hn]

/-- A node still in the Bootstrapping stage. -/
def bootNode : RNode where
  stage := Stage.bootstrapping
  fullId := 0
  rngCounter := 1
  selfName := 0
  msgQueue := []

/-- Witness for C9: a bootstrapping node accepts a send to a node
destination as a no-op returning Ok. -/
theorem handle_send_message_gates_witness :
    handle_send_message sampleREnv bootNode 0 (DstLocation.node 3) [1] =
      (bootNode, [], Except.ok ()) :=
  (handle_send_message_gates sampleREnv bootNode 0 [1]).2 (DstLocation.node 3)
    (by decide) rfl

end Peer

namespace TestRng

/-- Characters of the seed strings, as code points. -/
abbrev CharCode := Nat

/-- The u32 modulus. -/
def U32_MOD : Nat := 4294967296

/-- char::to_digit(10): the value of a decimal digit character. -/
def to_digit (c : CharCode) : Option Nat :=
  if 48 ≤ c ∧ c ≤ 57 then some (c - 48) else Option.none

/-- char::is_whitespace restricted to the ASCII whitespace characters. -/
def is_whitespace (c : CharCode) : Bool :=
  c == 32 || c == 9 || c == 10 || c == 13

/-- skip_whitespace from test_rng.rs (str::trim_start). -/
def skip_whitespace (input : List CharCode) : List CharCode :=
  input.dropWhile (fun c => is_whitespace c)

/-- ParseError from test_rng.rs. -/
inductive ParseError where
  | mk
deriving DecidableEq

/-- skip from test_rng.rs: consume one expected character. -/
def skip (input : List CharCode) (ch : CharCode) : Except ParseError (List CharCode) :=
  match input with
  | c :: rest => if c = ch then Except.ok rest else Except.error ParseError.mk
  | [] => Except.error ParseError.mk

/-- The digit-consuming loop of parse_u32, with the wrap-around of the u32
multiply-and-add made explicit. -/
def parse_u32_go : List CharCode → Nat → Nat × List CharCode
  | [], output => (output, [])
  | c :: rest, output =>
    match to_digit c with
    | some d => parse_u32_go rest ((output * 10 + d) % U32_MOD)
    | Option.none => (output, c :: rest)

/-- The same loop over unbounded naturals, used to express that the loop
never overflows on the inputs produced by Display. -/
def parse_u32_go_pure : List CharCode → Nat → Nat × List CharCode
  | [], output => (output, [])
  | c :: rest, output =>
    match to_digit c with
    | some d => parse_u32_go_pure rest (output * 10 + d)
    | Option.none => (output, c :: rest)

/-- parse_u32 from test_rng.rs: at least one digit must be present (the
empty flag), then the digit loop runs from zero. -/
def parse_u32 (input : List CharCode) : Except ParseError (Nat × List CharCode) :=
  match input with
  | [] => Except.error ParseError.mk
  | c :: rest =>
    match to_digit c with
    | some _ => Except.ok (parse_u32_go (c :: rest) 0)
    | Option.none => Except.error ParseError.mk

/-- Seed from test_rng.rs: four u32 components. -/
structure Seed where
  s0 : Nat
  s1 : Nat
  s2 : Nat
  s3 : Nat
deriving DecidableEq

/-- FromStr for Seed: optional whitespace, an opening bracket, the four
comma-separated components each preceded by optional whitespace, optional
whitespace, a closing bracket. -/
def from_str (input : List CharCode) : Except ParseError Seed :=
  (skip (skip_whitespace input) 91).bind (fun i1 =>
  (parse_u32 (skip_whitespace i1)).bind (fun p0 =>
  (skip (skip_whitespace p0.2) 44).bind (fun i2 =>
  (parse_u32 (skip_whitespace i2)).bind (fun p1 =>
  (skip (skip_whitespace p1.2) 44).bind (fun i3 =>
  (parse_u32 (skip_whitespace i3)).bind (fun p2 =>
  (skip (skip_whitespace p2.2) 44).bind (fun i4 =>
  (parse_u32 (skip_whitespace i4)).bind (fun p3 =>
  (skip (skip_whitespace p3.2) 93).bind (fun _ =>
  Except.ok ⟨p0.1, p1.1, p2.1, p3.1⟩)))))))))

/-- Big-endian decimal digit values of a natural number. -/
def natDigits (n : Nat) : List Nat :=
  if n < 10 then [n] else natDigits (n / 10) ++ [n % 10]
decreasing_by
  exact Nat.div_lt_self (by omega) (by omega)

/-- The character codes printing a u32 in decimal. -/
def render_u32 (n : Nat) : List CharCode :=
  (natDigits n).map (fun d => d + 48)

/-- Display for Seed, which formats the [u32; 4] with Debug: an opening
bracket, the decimal components separated by comma-space, a closing
bracket. -/
def to_string (s : Seed) : List CharCode :=
  91 :: (render_u32 s.s0 ++ 44 :: 32 :: (render_u32 s.s1 ++ 44 :: 32 ::
    (render_u32 s.s2 ++ 44 :: 32 :: (render_u32 s.s3 ++ [93]))))

/-- The value accumulated by folding decimal digits onto an accumulator. -/
def evalDigits (acc : Nat) (ds : List Nat) : Nat :=
  ds.foldl (fun a d => a * 10 + d) acc

/-- Whether the head of the input is a decimal digit character. -/
def headDigit : List CharCode → Bool
  | [] => false
  | c :: _ => (to_digit c).isSome

theorem evalDigits_le (ds : List Nat) : ∀ acc, acc ≤ evalDigits acc ds := by
  induction ds with
  | nil => intro acc; exact Nat.le_refl acc
  | cons d ds ih =>
    intro acc
    have h1 : acc ≤ acc * 10 + d := by omega
    exact Nat.le_trans h1 (ih (acc * 10 + d))

theorem evalDigits_append (acc : Nat) (xs ys : List Nat) :
    evalDigits acc (xs ++ ys) = evalDigits (evalDigits acc xs) ys := by
  simp [evalDigits, List.foldl_append]

theorem natDigits_spec (n : Nat) :
    evalDigits 0 (natDigits n) = n ∧ (∀ d ∈ natDigits n, d < 10) ∧
      natDigits n ≠ [] := by
  induction n using Nat.strong_induction_on with
  | _ n ih =>
    rw [natDigits]
    by_cases h : n < 10
    · rw [if_pos h]
      refine ⟨by simp [evalDigits], ?_, by simp⟩
      intro d hd
      simp at hd
      omega
    · have hdvd : n / 10 < n := Nat.div_lt_self (by omega) (by omega)
      obtain ⟨ih1, ih2, ih3⟩ := ih (n / 10) hdvd
      rw [if_neg h]
      refine ⟨?_, ?_, by simp⟩
      · rw [evalDigits_append, ih1]
        have := Nat.div_add_mod n 10
        simp [evalDigits]
        omega
      · intro d hd
        rcases List.mem_append.mp hd with h' | h'
        · exact ih2 d h'
        · have : d = n % 10 := by simpa using h'
          rw [this]
          exact Nat.mod_lt _ (by omega)

theorem to_digit_digit (d : Nat) (h : d < 10) : to_digit (d + 48) = some d := by
  have hc : 48 ≤ d + 48 ∧ d + 48 ≤ 57 := by omega
  rw [to_digit, if_pos hc]
  simp

theorem parse_u32_go_cons_digit (c : CharCode) (d : Nat) (rest : List CharCode)
    (acc : Nat) (h : to_digit c = some d) :
    parse_u32_go (c :: rest) acc = parse_u32_go rest ((acc * 10 + d) % U32_MOD) := by
  simp only [parse_u32_go, h]

theorem parse_u32_go_cons_nondigit (c : CharCode) (rest : List CharCode)
    (acc : Nat) (h : to_digit c = Option.none) :
    parse_u32_go (c :: rest) acc = (acc, c :: rest) := by
  simp only [parse_u32_go, h]

theorem parse_u32_go_pure_cons_digit (c : CharCode) (d : Nat) (rest : List CharCode)
    (acc : Nat) (h : to_digit c = some d) :
    parse_u32_go_pure (c :: rest) acc = parse_u32_go_pure rest (acc * 10 + d) := by
  simp only [parse_u32_go_pure, h]

theorem parse_u32_go_pure_cons_nondigit (c : CharCode) (rest : List CharCode)
    (acc : Nat) (h : to_digit c = Option.none) :
    parse_u32_go_pure (c :: rest) acc = (acc, c :: rest) := by
  simp only [parse_u32_go_pure, h]

theorem parse_u32_go_digits (ds : List Nat) :
    ∀ acc (rest : List CharCode), (∀ d ∈ ds, d < 10) → headDigit rest = false →
      evalDigits acc ds < U32_MOD →
      parse_u32_go (ds.map (fun d => d + 48) ++ rest) acc = (evalDigits acc ds, rest) ∧
      parse_u32_go_pure (ds.map (fun d => d + 48) ++ rest) acc = (evalDigits acc ds, rest) := by
  induction ds with
  | nil =>
    intro acc rest _ hrest _
    cases rest with
    | nil => exact ⟨rfl, rfl⟩
    | cons c r =>
      have hc : to_digit c = Option.none := by
        rw [headDigit] at hrest
        exact Option.not_isSome_iff_eq_none.mp (by simp [hrest])
      refine ⟨?_, ?_⟩
      · rw [List.map_nil, List.nil_append, parse_u32_go_cons_nondigit c r acc hc]
        rfl
      · rw [List.map_nil, List.nil_append, parse_u32_go_pure_cons_nondigit c r acc hc]
        rfl
  | cons d ds ih =>
    intro acc rest hds hrest hlt
    have hd : d < 10 := hds d (List.mem_cons_self d ds)
    have hstep : evalDigits acc (d :: ds) = evalDigits (acc * 10 + d) ds := rfl
    have hle : acc * 10 + d ≤ evalDigits acc (d :: ds) := by
      rw [hstep]
      exact evalDigits_le ds (acc * 10 + d)
    have hmod : (acc * 10 + d) % U32_MOD = acc * 10 + d :=
      Nat.mod_eq_of_lt (by omega)
    have ihds := ih (acc * 10 + d) rest (fun x hx => hds x (List.mem_cons_of_mem d hx))
      hrest (by rw [← hstep]; exact hlt)
    constructor
    · rw [List.map_cons, List.cons_append,
        parse_u32_go_cons_digit _ d _ acc (to_digit_digit d hd), hmod, hstep]
      exact ihds.1
    · rw [List.map_cons, List.cons_append,
        parse_u32_go_pure_cons_digit _ d _ acc (to_digit_digit d hd), hstep]
      exact ihds.2

theorem is_whitespace_digit (d : Nat) :
    is_whitespace (d + 48) = false := by
  simp [is_whitespace]

theorem ws_cons_not (c : CharCode) (h : is_whitespace c = false) (l : List CharCode) :
    skip_whitespace (c :: l) = c :: l := by
  simp [skip_whitespace, List.dropWhile_cons, h]

/-- One rendered component followed by a non-digit: trim_start is the
identity and parse_u32 consumes exactly the component. -/
theorem parse_component (v : Nat) (rest : List CharCode)
    (hv : v < U32_MOD) (hrest : headDigit rest = false) :
    skip_whitespace (render_u32 v ++ rest) = render_u32 v ++ rest ∧
    parse_u32 (render_u32 v ++ rest) = Except.ok (v, rest) := by
  obtain ⟨h1, h2, h3⟩ := natDigits_spec v
  cases hnd : natDigits v with
  | nil => exact absurd hnd h3
  | cons d ds =>
    have hd : d < 10 := h2 d (by rw [hnd]; exact List.mem_cons_self d ds)
    have hmap : render_u32 v ++ rest = (d + 48) :: (ds.map (fun x => x + 48) ++ rest) := by
      simp [render_u32, hnd]
    have hgo := parse_u32_go_digits (d :: ds) 0 rest
      (by rw [← hnd]; exact h2) hrest (by rw [← hnd, h1]; exact hv)
    constructor
    · rw [hmap]
      exact ws_cons_not _ (is_whitespace_digit d) _
    · rw [hmap, parse_u32, to_digit_digit d hd]
      have : (d + 48) :: (ds.map (fun x => x + 48) ++ rest) =
          (d :: ds).map (fun x => x + 48) ++ rest := by simp
      rw [this, hgo.1]
      rw [← hnd, h1]

theorem except_bind_ok {ε α β : Type} (a : α) (f : α → Except ε β) :
    (Except.ok a : Except ε α).bind f = f a := rfl

theorem ws91 (l : List CharCode) : skip_whitespace (91 :: l) = 91 :: l := rfl

theorem ws44 (l : List CharCode) : skip_whitespace (44 :: l) = 44 :: l := rfl

theorem ws32 (l : List CharCode) : skip_whitespace (32 :: l) = skip_whitespace l := rfl

theorem ws93 (l : List CharCode) : skip_whitespace (93 :: l) = 93 :: l := rfl

theorem skip91 (l : List CharCode) : skip (91 :: l) 91 = Except.ok l := rfl

theorem skip44 (l : List CharCode) : skip (44 :: l) 44 = Except.ok l := rfl

theorem skip93 (l : List CharCode) : skip (93 :: l) 93 = Except.ok l := rfl

/-- C10: rendering a seed with Display and parsing it back with FromStr
yields the seed again, and on every rendered component the parse_u32 loop
computes the same result with wrapping u32 arithmetic as with unbounded
arithmetic, i.e. no intermediate overflow occurs. -/
theorem seed_display_roundtrip (s : Seed)
    (h0 : s.s0 < U32_MOD) (h1 : s.s1 < U32_MOD)
    (h2 : s.s2 < U32_MOD) (h3 : s.s3 < U32_MOD) :
    from_str (to_string s) = Except.ok s ∧
    (∀ v rest, v < U32_MOD → headDigit rest = false →
      parse_u32_go (render_u32 v ++ rest) 0 =
        parse_u32_go_pure (render_u32 v ++ rest) 0) := by
  constructor
  · obtain ⟨wsA, puA⟩ := parse_component s.s0
      (44 :: 32 :: (render_u32 s.s1 ++ 44 :: 32 ::
        (render_u32 s.s2 ++ 44 :: 32 :: (render_u32 s.s3 ++ [93])))) h0 rfl
    obtain ⟨wsB, puB⟩ := parse_component s.s1
      (44 :: 32 :: (render_u32 s.s2 ++ 44 :: 32 :: (render_u32 s.s3 ++ [93]))) h1 rfl
    obtain ⟨wsC, puC⟩ := parse_component s.s2
      (44 :: 32 :: (render_u32 s.s3 ++ [93])) h2 rfl
    obtain ⟨wsD, puD⟩ := parse_component s.s3 [93] h3 rfl
    simp [from_str, to_string, except_bind_ok, ws91, skip91, ws44, skip44, ws32,
      ws93, skip93, wsA, puA, wsB, puB, wsC, puC, wsD, puD]
  · intro v rest hv hrest
    obtain ⟨hsp1, hsp2, _⟩ := natDigits_spec v
    have hgo := parse_u32_go_digits (natDigits v) 0 rest hsp2 hrest
      (by rw [hsp1]; exact hv)
    rw [render_u32, hgo.1, hgo.2]

/-- Witness for C10: the concrete seed [0, 1, 2, 3] renders and parses back
to itself. -/
theorem seed_display_roundtrip_witness :
    from_str (to_string ⟨0, 1, 2, 3⟩) = Except.ok ⟨0, 1, 2, 3⟩ :=
  (seed_display_roundtrip ⟨0, 1, 2, 3⟩ (by decide) (by decide) (by decide)
    (by decide)).1

end TestRng
